import Mathlib

/-!
Verification of the Tiered Semantic Cache & Relevance-Filtered Retrieval
Engine of the OptiEngine repository.

The embedding covers:
* `backend/app/engine/orchestrator.py` — `process_optimization`, the
  three-tier lookup/fallback state machine;
* `backend/app/db/vector_store.py` — `search_tier1`, `search_tier2`,
  `insert_tier1`, `insert_tier2`;
* `backend/app/db/retriever.py` — `_make_doc_id`, `_query_collection`,
  `ingest_rule`, and the relevance-filter pipeline inside
  `retrieve_relevant_rules`.

External collaborators are modelled by their contracts: the similarity
store keeps records in insertion order and answers a single-best query by
minimal distance (ties broken toward the most recently inserted record;
the store contract leaves ties unspecified); the `hydrate` and
`synthesize` adapters are function parameters returning `Except` (a
Python exception, including an unparseable generator output inside
`synthesize_algorithm`, is the `.error` case); wall-clock latency metrics
are not modelled; `uuid.uuid4()` is modelled by a per-state freshness
counter.
-/

namespace OptiEngine

open List

/-! ## Data model (schemas/payloads.py and the engine's record shapes) -/

/-- The caller's code context (`CodeContext` fields used by the engine). -/
structure CodeContext where
  language : String
  existing_code : String
  structs_or_classes : String
  variable_names : String
deriving DecidableEq

/-- An optimization request (`OptimizeRequest` fields used by the engine). -/
structure OptimizeRequest where
  org_id : String
  intent : String
  context : CodeContext
deriving DecidableEq

/-- The orchestrator's response. `metrics.latency_ms` (wall clock) is not
modelled; `tokens_saved` is the simulated constant the code returns. -/
structure OptimizeResponse where
  status : String
  source_tier : String
  time_complexity : String
  optimized_code : String
  tokens_saved : Nat
deriving DecidableEq

/-- Structured output of `synthesize_algorithm` (the two fields the
orchestrator reads; `latency_ms` is not modelled). -/
structure SynthResult where
  pure_cpp_code : String
  time_complexity : String
deriving DecidableEq

/-- Metadata stored with a Tier 1 (org cache) record, as written by
`insert_tier1` in vector_store.py. -/
structure T1Meta where
  org_id : String
  language : String
  optimized_code : String
  time_complexity : String
deriving DecidableEq

/-- A Tier 1 record: store-assigned id, embedded document text, metadata. -/
structure T1Rec where
  id : String
  doc : String
  meta : T1Meta
deriving DecidableEq

/-- Metadata stored with a Tier 2 (global cache) record, as written by
`insert_tier2` in vector_store.py (language is always "C++"). -/
structure T2Meta where
  language : String
  optimized_code : String
  time_complexity : String
deriving DecidableEq

/-- A Tier 2 record. -/
structure T2Rec where
  id : String
  doc : String
  meta : T2Meta
deriving DecidableEq

/-- The shared mutable state of the two cache tiers, plus the freshness
counter modelling `uuid.uuid4()` draws. -/
structure EngineState where
  tier1 : List T1Rec
  tier2 : List T2Rec
  nextUuid : Nat
deriving DecidableEq

/-- Observable events of one orchestrator run: store probes, adapter
calls, and tier writes, in the order the code performs them. -/
inductive Ev where
  | searchT1
  | searchT2
  | synthesizeEv
  | hydrateEv
  | writeT1
  | writeT2
deriving DecidableEq

/-- A failed request, tagged with the phase whose adapter raised (the
Python exception propagating out of `hydrate_algorithm` resp.
`synthesize_algorithm`, the latter including `json` parsing errors). -/
inductive EngineError where
  | synthesisFailed (msg : String)
  | hydrationFailed (msg : String)
deriving DecidableEq

/-! ## Similarity-store model and vector_store.py operations -/

/-- Single-best nearest-neighbour answer: the record of minimal distance,
ties broken toward the most recently inserted (rightmost) record.
`none` when the namespace is empty (chroma returns an empty row). -/
def bestMatch {α : Type} (d : α → ℚ) (l : List α) : Option α :=
  l.foldl
    (fun acc r =>
      match acc with
      | none => some r
      | some b => if d r ≤ d b then some r else some b)
    none

/-- `search_tier1` (vector_store.py): query the org cache with
`n_results = 1` and a `where = org_id` filter. -/
def search_tier1 (dist : String → String → ℚ) (s : EngineState)
    (org_id query : String) : Option T1Rec :=
  bestMatch (fun r => dist query r.doc)
    (s.tier1.filter (fun r => r.meta.org_id == org_id))

/-- `search_tier2` (vector_store.py): query the global cache with
`n_results = 1`, no filter. -/
def search_tier2 (dist : String → String → ℚ) (s : EngineState)
    (query : String) : Option T2Rec :=
  bestMatch (fun r => dist query r.doc) s.tier2

/-- `insert_tier1` (vector_store.py): unconditional `add` of one record
with the given id; the store appends it. -/
def insert_tier1 (s : EngineState) (org_id doc_id problem_intent
    optimized_code language time_complexity : String) : EngineState :=
  { s with tier1 := s.tier1 ++
      [⟨doc_id, problem_intent,
        ⟨org_id, language, optimized_code, time_complexity⟩⟩] }

/-- `insert_tier2` (vector_store.py): unconditional `add` of one record;
the stored language tag is always "C++". -/
def insert_tier2 (s : EngineState) (doc_id problem_intent pure_cpp_code
    time_complexity : String) : EngineState :=
  { s with tier2 := s.tier2 ++
      [⟨doc_id, problem_intent,
        ⟨"C++", pure_cpp_code, time_complexity⟩⟩] }

/-- The next `uuid.uuid4()` draw in state `s` (modelled as fresh by
counting). -/
def uuidStr (s : EngineState) : String :=
  "uuid-" ++ toString s.nextUuid

/-- Consume one uuid draw. -/
def bump (s : EngineState) : EngineState :=
  { s with nextUuid := s.nextUuid + 1 }

/-! ## Orchestrator (engine/orchestrator.py, `process_optimization`) -/

/-- Step 1 acceptance test, mirroring orchestrator.py lines 14–21: the
single closest Tier 1 candidate is a hit iff its distance is `< 1.0`
and its stored `language` equals the request's language. Returns the
accepted record, `none` on a miss (fall through). -/
def tier1Hit? (dist : String → String → ℚ) (s : EngineState)
    (request : OptimizeRequest) : Option T1Rec :=
  match search_tier1 dist s request.org_id request.intent with
  | some r =>
      if dist request.intent r.doc < 1 then
        if r.meta.language == request.context.language then some r else none
      else none
  | none => none

/-- Step 2 acceptance test, mirroring orchestrator.py lines 33–35: the
single closest Tier 2 candidate is a hit iff its distance is `< 1.0`
(no equality constraint). -/
def tier2Hit? (dist : String → String → ℚ) (s : EngineState)
    (request : OptimizeRequest) : Option T2Rec :=
  match search_tier2 dist s request.intent with
  | some r => if dist request.intent r.doc < 1 then some r else none
  | none => none

/-- The Tier 1 hit response (orchestrator.py lines 22–28). -/
def tier1Response (r : T1Rec) : OptimizeResponse :=
  { status := "success"
    source_tier := "Tier 1 (Org Cache)"
    time_complexity := r.meta.time_complexity
    optimized_code := r.meta.optimized_code
    tokens_saved := 1500 }

/-- Step 3 of `process_optimization` (orchestrator.py lines 56–80):
synthesize, write the pure artifact to Tier 2, hydrate, write the
hydrated artifact to Tier 1. Note the Tier 2 write precedes the
hydration call, exactly as in the source. -/
def step3_synthesize (hydrate : String → CodeContext → Except String String)
    (synth : OptimizeRequest → Except String SynthResult)
    (s : EngineState) (request : OptimizeRequest) :
    Except EngineError OptimizeResponse × EngineState × List Ev :=
  match synth request with
  | .error m => (.error (.synthesisFailed m), s, [.synthesizeEv])
  | .ok sr =>
      let global_doc_id := uuidStr s
      let s1 := insert_tier2 (bump s) global_doc_id request.intent
        sr.pure_cpp_code sr.time_complexity
      match hydrate sr.pure_cpp_code request.context with
      | .error m =>
          (.error (.hydrationFailed m), s1,
            [.synthesizeEv, .writeT2, .hydrateEv])
      | .ok hydrated_code =>
          let org_doc_id := uuidStr s1
          let s2 := insert_tier1 (bump s1) request.org_id org_doc_id
            request.intent hydrated_code request.context.language
            sr.time_complexity
          (.ok { status := "success"
                 source_tier := "Tier 3 (Active Synthesis)"
                 time_complexity := sr.time_complexity
                 optimized_code := hydrated_code
                 tokens_saved := 0 },
            s2, [.synthesizeEv, .writeT2, .hydrateEv, .writeT1])

/-- Step 2 of `process_optimization` (orchestrator.py lines 30–54): probe
Tier 2; on a hit, hydrate and write through to Tier 1; on a miss, fall
through to synthesis. -/
def step2_tier2 (dist : String → String → ℚ)
    (hydrate : String → CodeContext → Except String String)
    (synth : OptimizeRequest → Except String SynthResult)
    (s : EngineState) (request : OptimizeRequest) :
    Except EngineError OptimizeResponse × EngineState × List Ev :=
  match tier2Hit? dist s request with
  | some r2 =>
      match hydrate r2.meta.optimized_code request.context with
      | .error m => (.error (.hydrationFailed m), s, [.searchT2, .hydrateEv])
      | .ok hydrated_code =>
          let doc_id := uuidStr s
          let s1 := insert_tier1 (bump s) request.org_id doc_id
            request.intent hydrated_code request.context.language
            r2.meta.time_complexity
          (.ok { status := "success"
                 source_tier := "Tier 2 (Global Cache + Hydration)"
                 time_complexity := r2.meta.time_complexity
                 optimized_code := hydrated_code
                 tokens_saved := 1400 },
            s1, [.searchT2, .hydrateEv, .writeT1])
  | none =>
      let out := step3_synthesize hydrate synth s request
      (out.1, out.2.1, .searchT2 :: out.2.2)

/-- `process_optimization` (orchestrator.py lines 8–80): probe Tier 1,
then Tier 2, then synthesize. Returns the response (or the failed
phase), the final store state, and the trace of store probes, adapter
calls and tier writes in source order. -/
def process_optimization (dist : String → String → ℚ)
    (hydrate : String → CodeContext → Except String String)
    (synth : OptimizeRequest → Except String SynthResult)
    (s : EngineState) (request : OptimizeRequest) :
    Except EngineError OptimizeResponse × EngineState × List Ev :=
  match tier1Hit? dist s request with
  | some r => (.ok (tier1Response r), s, [.searchT1])
  | none =>
      let out := step2_tier2 dist hydrate synth s request
      (out.1, out.2.1, .searchT1 :: out.2.2)

/-! ## Rule retriever (db/retriever.py) -/

/-- Cosine-distance threshold `RELEVANCE_THRESHOLD = 1.0` (retriever.py). -/
def RELEVANCE_THRESHOLD : ℚ := 1

/-- `CANDIDATE_POOL_SIZE = 8` (retriever.py). -/
def CANDIDATE_POOL_SIZE : Nat := 8

/-- `MAX_RULES_TO_APPLY = 5` (retriever.py). -/
def MAX_RULES_TO_APPLY : Nat := 5

/-- Metadata of one guideline record, as written by `ingest_rule`. -/
structure GMeta where
  domain : String
  project : String
  topic : String
  rule_text : String
  version : Nat
deriving DecidableEq

/-- One record of a guideline collection: store-assigned id, embedded
document text, metadata. -/
structure GRecord where
  id : String
  document : String
  meta : GMeta
deriving DecidableEq

/-- A guideline collection (one per domain). -/
structure GCollection where
  recs : List GRecord
deriving DecidableEq

/-- A candidate row as the similarity store reports it to
`_query_collection`: the stored metadata fields the code reads. -/
structure StoreRow where
  rule_text : String
  topic : String
  domain : String
  project : String
deriving DecidableEq

/-- The behavioural contract of a chroma collection as `_query_collection`
consumes it: `cnt` models `collection.count()` and `queryFn` models
`collection.query(query_texts=[q], n_results=k)` returning metadata rows
paired with ascending distances; either call may raise (`Except.error`). -/
structure Collection where
  cnt : Except String Nat
  queryFn : String → Nat → Except String (List (StoreRow × ℚ))

/-- A flat hit dict as `_query_collection` builds it. -/
structure RHit where
  rule_text : String
  topic : String
  domain : String
  project : String
  distance : ℚ
deriving DecidableEq

/-- `_query_collection` (retriever.py lines 46–80). The second component
instruments the store interaction: it records the `n_results` value of
each `collection.query` call actually issued. A raised store exception
is caught (`except Exception`) and yields the empty hit list. -/
def _query_collection (c : Collection) (query_text : String)
    (n_results : Nat) : List RHit × List Nat :=
  match c.cnt with
  | .error _ => ([], [])
  | .ok count =>
      if count = 0 then ([], [])
      else
        let actual_n := min n_results count
        match c.queryFn query_text actual_n with
        | .error _ => ([], [actual_n])
        | .ok rows =>
            (rows.map (fun rd =>
              ⟨rd.1.rule_text, rd.1.topic, rd.1.domain, rd.1.project, rd.2⟩),
             [actual_n])

/-- `_make_doc_id` (retriever.py lines 37–43): deterministic content
fingerprint of `domain.lower() + ":" + project.lower() + ":" +
rule_text.strip().lower()`; the sha256/truncation step is modelled by
the abstract digest function `hash`. The `topic` is not part of the
fingerprint. -/
def _make_doc_id (hash : String → String)
    (domain project rule_text : String) : String :=
  hash (domain.toLower ++ ":" ++ project.toLower ++ ":" ++
    rule_text.trim.toLower)

/-- `ingest_rule` (retriever.py lines 87–122): compute the content
fingerprint; if a record with that id already exists, return the id and
leave the collection untouched; otherwise embed `topic + ": " +
rule_text` and append one record with `version = 1`. -/
def ingest_rule (hash : String → String) (c : GCollection)
    (domain project topic rule_text : String) : String × GCollection :=
  let doc_id := _make_doc_id hash domain project rule_text
  if c.recs.any (fun r => r.id == doc_id) then
    (doc_id, c)
  else
    let document_text := topic ++ ": " ++ rule_text
    (doc_id,
      ⟨c.recs ++
        [⟨doc_id, document_text, ⟨domain, project, topic, rule_text, 1⟩⟩]⟩)

/-! ## Relevance filter (retriever.py, `retrieve_relevant_rules` steps 3–4) -/

/-- The sort key of step 4: `sorted(..., key=lambda h: h["distance"])`. -/
def hitLE (a b : RHit) : Prop :=
  a.distance ≤ b.distance

instance : DecidableRel hitLE := fun a b =>
  inferInstanceAs (Decidable (a.distance ≤ b.distance))

instance : IsTotal RHit hitLE :=
  ⟨fun a b => le_total a.distance b.distance⟩

instance : IsTrans RHit hitLE :=
  ⟨fun _ _ _ h1 h2 => le_trans h1 h2⟩

/-- Step 3: `[h for h in all_hits if h["distance"] < threshold]`. The
threshold is a parameter; the code instantiates it with the module
constant `RELEVANCE_THRESHOLD`. -/
def relevantOf (threshold : ℚ) (all_hits : List RHit) : List RHit :=
  all_hits.filter (fun h => decide (h.distance < threshold))

/-- Step 4's stable ascending-by-distance sort (Python's `sorted` is a
stable sort; insertion sort with `≤` is its stable model). -/
def sortHits (l : List RHit) : List RHit :=
  List.insertionSort hitLE l

/-- Step 4's dedup loop: a `seen` set of `rule_text` keys, keeping the
first occurrence of each key in the (already sorted) list. -/
def dedupByRuleText : List String → List RHit → List RHit
  | _, [] => []
  | seen, h :: t =>
      if h.rule_text ∈ seen then dedupByRuleText seen t
      else h :: dedupByRuleText (h.rule_text :: seen) t

/-- Steps 3–4 of `retrieve_relevant_rules` (retriever.py lines 164–191):
threshold filter (with the early empty return), stable sort ascending by
distance, dedup by `rule_text`, truncate to `max_rules`. -/
def retrieve_filter (threshold : ℚ) (all_hits : List RHit)
    (max_rules : Nat) : List RHit :=
  let relevant_hits := relevantOf threshold all_hits
  if relevant_hits.isEmpty then []
  else (dedupByRuleText [] (sortHits relevant_hits)).take max_rules

/-- A developer prompt request (schemas/payloads.py `PromptRequest`). -/
structure PromptRequest where
  junior_prompt : String
  domain : String
  project : String
deriving DecidableEq

/-- `retrieve_relevant_rules` (retriever.py lines 125–191): query the
Global collection and (unless the domain is Global) the domain
collection with `CANDIDATE_POOL_SIZE`, merge, then apply the filter
pipeline with `RELEVANCE_THRESHOLD`. -/
def retrieve_relevant_rules (global_collection domain_collection : Collection)
    (request : PromptRequest) (max_rules : Nat) : List RHit :=
  let global_hits :=
    (_query_collection global_collection request.junior_prompt
      CANDIDATE_POOL_SIZE).1
  let domain_hits :=
    if request.domain.toLower ≠ "global" then
      (_query_collection domain_collection request.junior_prompt
        CANDIDATE_POOL_SIZE).1
    else []
  let all_hits := global_hits ++ domain_hits
  if all_hits.isEmpty then []
  else retrieve_filter RELEVANCE_THRESHOLD all_hits max_rules

/-! ## Concrete fixtures for witnesses and counterexamples -/

/-- A concrete code context. -/
def exCtx : CodeContext :=
  ⟨"Python", "for loop", "class A", "xs"⟩

/-- A concrete optimization request. -/
def exReq : OptimizeRequest :=
  ⟨"org-1", "sort array", exCtx⟩

/-- Both cache tiers empty, no uuid draws yet. -/
def exState0 : EngineState :=
  ⟨[], [], 0⟩

/-- A degenerate embedding distance: everything is identical. -/
def distZero : String → String → ℚ :=
  fun _ _ => 0

/-- A hydrate adapter that always succeeds. -/
def hydrOk : String → CodeContext → Except String String :=
  fun code _ => .ok ("hydrated: " ++ code)

/-- A hydrate adapter that always raises. -/
def hydrFail : String → CodeContext → Except String String :=
  fun _ _ => .error "groq unavailable"

/-- A synthesize adapter that always succeeds. -/
def synthOk : OptimizeRequest → Except String SynthResult :=
  fun _ => .ok ⟨"pure cpp", "O(n)"⟩

/-- The engine state after one full synthesis-path run of
`process_optimization distZero hydrOk synthOk exState0 exReq`. -/
def exStateAfter : EngineState :=
  ⟨[⟨"uuid-1", "sort array", ⟨"org-1", "Python", "hydrated: pure cpp", "O(n)"⟩⟩],
   [⟨"uuid-0", "sort array", ⟨"C++", "pure cpp", "O(n)"⟩⟩],
   2⟩

/-- A degenerate digest for witnesses (any deterministic function models
the truncated sha256). -/
def constHash : String → String :=
  fun _ => "digest0"

/-- A guideline collection already holding the rule
`(Backend, All, "use orm")` under topic `OldTopic`, with its
`constHash` fingerprint as id. -/
def exColl : GCollection :=
  ⟨[⟨"digest0", "OldTopic: use orm",
     ⟨"Backend", "All", "OldTopic", "use orm", 1⟩⟩]⟩

/-- A collection of three documents whose query succeeds. -/
def exCollection3 : Collection :=
  ⟨.ok 3, fun _ k => .ok (List.replicate k (⟨"r", "t", "d", "p"⟩, (1 : ℚ) / 2))⟩

/-- A collection whose query call raises. -/
def failingCollection : Collection :=
  ⟨.ok 5, fun _ _ => .error "connection refused"⟩

/-- An empty collection. -/
def emptyCollection : Collection :=
  ⟨.ok 0, fun _ _ => .ok []⟩

/-- The rational 3/5 as a kernel-reducible literal. -/
def q35 : ℚ := ⟨3, 5, by decide, by decide⟩

/-- The rational 1/5 as a kernel-reducible literal. -/
def q15 : ℚ := ⟨1, 5, by decide, by decide⟩

/-- The rational 1/2 as a kernel-reducible literal. -/
def q12 : ℚ := ⟨1, 2, by decide, by decide⟩

/-- Three candidates, two sharing the content key "dup". -/
def exHits : List RHit :=
  [⟨"dup", "t1", "d", "p", q35⟩,
   ⟨"dup", "t2", "d", "p", q15⟩,
   ⟨"other", "t3", "d", "p", q12⟩]

/-- The lowest-distance occurrence of the duplicated key in `exHits`. -/
def hDup : RHit :=
  ⟨"dup", "t2", "d", "p", q15⟩

/-- A candidate at distance 0 (threshold minus epsilon for epsilon 1). -/
def exHit0 : RHit :=
  ⟨"z", "t", "d", "p", 0⟩

/-- Twenty qualifying candidates with pairwise distinct keys, listed in
descending distance order. -/
def exHits20 : List RHit :=
  (List.range 20).map
    (fun i => ⟨Nat.repr i, "t", "d", "p", ((19 - i : ℕ) : ℚ) / 40⟩)

/-! ## Theorems -/

/-- C8: every store query issued by `_query_collection` requests
`min n_results count` candidates, never more than the collection holds,
and a `count = 0` collection yields the empty candidate list with no
store query at all. -/
theorem query_collection_caps (c : Collection) (q : String) (n count : Nat)
    (hc : c.cnt = .ok count) :
    (count = 0 → _query_collection c q n = ([], [])) ∧
    (∀ k ∈ (_query_collection c q n).2, k = min n count ∧ k ≤ count) := by
  constructor
  · intro h0
    unfold _query_collection
    rw [hc]
    simp [h0]
  · intro k hk
    unfold _query_collection at hk
    rw [hc] at hk
    by_cases h0 : count = 0
    · simp [h0] at hk
    · simp only [h0, if_false, ite_false] at hk
      cases hq : c.queryFn q (min n count) with
      | error m =>
          rw [hq] at hk
          simp at hk
          exact ⟨hk, hk ▸ Nat.min_le_right n count⟩
      | ok rows =>
          rw [hq] at hk
          simp at hk
          exact ⟨hk, hk ▸ Nat.min_le_right n count⟩

/-- C8 witness: on a three-document collection, the single issued query
requests `min 8 3 = 3` candidates. -/
theorem query_collection_caps_witness : 3 = min 8 3 ∧ 3 ≤ 3 :=
  (query_collection_caps exCollection3 "X" 8 3 rfl).2 3 (by decide)

/-- C9 counterexample: a store whose query raises does not fail the
request — `_query_collection` swallows the exception and returns the
empty candidate list, the very value reserved for the
no-relevant-knowledge outcome (identical to querying an empty
collection). -/
theorem query_collection_swallows_store_error :
    (_query_collection failingCollection "X" 8).1 = [] ∧
    (_query_collection failingCollection "X" 8).1 =
      (_query_collection emptyCollection "X" 8).1 :=
  ⟨rfl, rfl⟩

/-- C9 amended: a raised store call inside `_query_collection` is caught
and converted into the empty candidate list (whether `count()` or
`query()` raised); the request succeeds with no candidates instead of
surfacing the error. -/
theorem query_collection_error_to_empty (c : Collection) (q : String)
    (n : Nat) :
    (∀ m, c.cnt = .error m → _query_collection c q n = ([], [])) ∧
    (∀ m count, c.cnt = .ok count → count ≠ 0 →
      c.queryFn q (min n count) = .error m →
      _query_collection c q n = ([], [min n count])) := by
  constructor
  · intro m hm
    unfold _query_collection
    rw [hm]
  · intro m count hc h0 hq
    unfold _query_collection
    rw [hc]
    simp only [h0, if_false, ite_false]
    rw [hq]

/-- C9 amended witness: the failing collection yields the empty hit list
and one swallowed query of size `min 8 5 = 5`. -/
theorem query_collection_error_to_empty_witness :
    _query_collection failingCollection "X" 8 = ([], [min 8 5]) :=
  (query_collection_error_to_empty failingCollection "X" 8).2
    "connection refused" 5 rfl (by decide) rfl

/-- If a record carrying the content fingerprint is already present,
`ingest_rule` returns the fingerprint and the untouched collection. -/
theorem ingest_noop_of_mem (hash : String → String) (c : GCollection)
    (domain project topic rule_text : String)
    (h : ∃ r ∈ c.recs, r.id = _make_doc_id hash domain project rule_text) :
    ingest_rule hash c domain project topic rule_text =
      (_make_doc_id hash domain project rule_text, c) := by
  obtain ⟨r, hr, hid⟩ := h
  have hany : c.recs.any
      (fun r => r.id == _make_doc_id hash domain project rule_text) = true :=
    List.any_eq_true.mpr ⟨r, hr, by simp [hid]⟩
  unfold ingest_rule
  simp only [hany, if_true, ite_true]

/-- The first component of `ingest_rule` is always the content
fingerprint. -/
theorem ingest_fst (hash : String → String) (c : GCollection)
    (domain project topic rule_text : String) :
    (ingest_rule hash c domain project topic rule_text).1 =
      _make_doc_id hash domain project rule_text := by
  unfold ingest_rule
  dsimp only
  split <;> rfl

/-- After any `ingest_rule` call, a record carrying the content
fingerprint is present in the resulting collection. -/
theorem ingest_rule_id_mem (hash : String → String) (c : GCollection)
    (domain project topic rule_text : String) :
    ∃ r ∈ (ingest_rule hash c domain project topic rule_text).2.recs,
      r.id = _make_doc_id hash domain project rule_text := by
  unfold ingest_rule
  cases hb : c.recs.any
      (fun r => r.id == _make_doc_id hash domain project rule_text) with
  | true =>
      simp only [hb, if_true, ite_true]
      obtain ⟨r, hr, hbeq⟩ := List.any_eq_true.mp hb
      exact ⟨r, hr, by simpa using hbeq⟩
  | false =>
      simp only [hb, if_false, ite_false]
      exact ⟨⟨_make_doc_id hash domain project rule_text,
        topic ++ ": " ++ rule_text,
        ⟨domain, project, topic, rule_text, 1⟩⟩,
        List.mem_append_right _ (List.mem_singleton.mpr rfl), rfl⟩

/-- C10: re-ingesting a rule whose `(domain, project, rule_text)` triple
already exists returns the existing fingerprint id and leaves the
collection entirely unchanged, for any new `topic`: the topic is
excluded from the identity fingerprint, so the stored topic and embedded
document text are retained and the new topic is discarded. -/
theorem ingest_rule_existing_noop (hash : String → String) (c : GCollection)
    (domain project topic rule_text : String)
    (h : ∃ r ∈ c.recs, r.id = _make_doc_id hash domain project rule_text) :
    ingest_rule hash c domain project topic rule_text =
      (_make_doc_id hash domain project rule_text, c) :=
  ingest_noop_of_mem hash c domain project topic rule_text h

/-- C10 witness: re-ingesting `(Backend, All, "use orm")` under a new
topic returns the stored id and the untouched collection. -/
theorem ingest_rule_existing_noop_witness :
    ingest_rule constHash exColl "Backend" "All" "NewTopic" "use orm" =
      (_make_doc_id constHash "Backend" "All" "use orm", exColl) :=
  ingest_rule_existing_noop constHash exColl "Backend" "All" "NewTopic"
    "use orm"
    ⟨⟨"digest0", "OldTopic: use orm",
       ⟨"Backend", "All", "OldTopic", "use orm", 1⟩⟩,
     by decide, rfl⟩

/-- C2 counterexample: the engine's cache-tier write (as the orchestrator
performs it, with a fresh uuid per call) is not idempotent: writing the
identical logical content to Tier 2 twice yields two records with
distinct ids and `count = 2`, not an unchanged count. -/
theorem cache_insert_not_idempotent :
    ((insert_tier2
        (bump (insert_tier2 (bump exState0) (uuidStr exState0)
          "sort array" "pure cpp" "O(n)"))
        (uuidStr (insert_tier2 (bump exState0) (uuidStr exState0)
          "sort array" "pure cpp" "O(n)"))
        "sort array" "pure cpp" "O(n)").tier2).length = 2 ∧
    uuidStr exState0 ≠
      uuidStr (insert_tier2 (bump exState0) (uuidStr exState0)
        "sort array" "pure cpp" "O(n)") := by
  constructor
  · rfl
  · decide

/-- C2 amended: idempotent content-fingerprint writes hold for rule
ingestion — re-ingesting the same `(domain, project, topic, rule_text)`
returns the same id and leaves the collection unchanged — but not for
the cache tiers, whose writes draw a fresh uuid per call and append
unconditionally, so a second write of the same logical content always
adds a second record. -/
theorem ingest_idempotent_cache_writes_duplicate :
    (∀ (hash : String → String) (c : GCollection)
        (domain project topic rule_text : String),
      ingest_rule hash (ingest_rule hash c domain project topic rule_text).2
          domain project topic rule_text =
        ingest_rule hash c domain project topic rule_text) ∧
    (∀ (s : EngineState) (id1 id2 intent code tc : String),
      ((insert_tier2 (insert_tier2 s id1 intent code tc)
          id2 intent code tc).tier2).length = s.tier2.length + 2) ∧
    (∀ (s : EngineState) (org id1 id2 intent code lang tc : String),
      ((insert_tier1 (insert_tier1 s org id1 intent code lang tc)
          org id2 intent code lang tc).tier1).length = s.tier1.length + 2) := by
  refine ⟨?_, ?_, ?_⟩
  · intro hash c domain project topic rule_text
    rw [ingest_noop_of_mem hash _ domain project topic rule_text
      (ingest_rule_id_mem hash c domain project topic rule_text)]
    exact Prod.ext
      (ingest_fst hash c domain project topic rule_text).symm rfl
  · intro s id1 id2 intent code tc
    simp [insert_tier2]
  · intro s org id1 id2 intent code lang tc
    simp [insert_tier1]

/-- C2 amended witness: re-ingesting the concrete stored rule is a no-op. -/
theorem ingest_idempotent_witness :
    ingest_rule constHash
        (ingest_rule constHash exColl "Backend" "All" "OldTopic" "use orm").2
        "Backend" "All" "OldTopic" "use orm" =
      ingest_rule constHash exColl "Backend" "All" "OldTopic" "use orm" :=
  ingest_idempotent_cache_writes_duplicate.1 constHash exColl "Backend" "All"
    "OldTopic" "use orm"

/-- A state with a Tier 1 record for `org-1` in the wrong language. -/
def exStateLang : EngineState :=
  ⟨[⟨"uuid-9", "sort array", ⟨"org-1", "Java", "java code", "O(n)"⟩⟩], [], 0⟩

/-- Appending a distance-zero record makes it the single-best answer
(distances are non-negative; ties break toward the latest insert). -/
theorem bestMatch_append_zero {α : Type} (d : α → ℚ) (l : List α) (r : α)
    (hr : d r = 0) (hnn : ∀ x, 0 ≤ d x) :
    bestMatch d (l ++ [r]) = some r := by
  unfold bestMatch
  have h1 : ∀ acc : Option α,
      List.foldl (fun acc r => match acc with
        | none => some r
        | some b => if d r ≤ d b then some r else some b) acc [r] = some r := by
    intro acc
    cases acc with
    | none => rfl
    | some b =>
        show (if d r ≤ d b then some r else some b) = some r
        rw [if_pos (by rw [hr]; exact hnn b)]
  rw [List.foldl_append, h1]

/-- After `insert_tier1` of a record embedding the query text itself, a
Tier 1 search for the same org and query returns exactly that record. -/
theorem search_tier1_after_insert (dist : String → String → ℚ)
    (s : EngineState) (org doc_id intent code lang tc : String)
    (hd0 : dist intent intent = 0) (hnn : ∀ a b, 0 ≤ dist a b) :
    search_tier1 dist (insert_tier1 s org doc_id intent code lang tc)
      org intent = some ⟨doc_id, intent, ⟨org, lang, code, tc⟩⟩ := by
  unfold search_tier1 insert_tier1
  rw [List.filter_append]
  simp only [List.filter_cons, List.filter_nil, beq_self_eq_true, if_true,
    ite_true]
  exact bestMatch_append_zero (fun r : T1Rec => dist intent r.doc) _ _ hd0
    (fun x : T1Rec => hnn intent x.doc)

/-- The freshly written Tier 1 record is accepted as a hit on the next
identical request: its distance is 0 and its language tag matches. -/
theorem tier1Hit_after_insert (dist : String → String → ℚ)
    (s : EngineState) (request : OptimizeRequest) (doc_id code tc : String)
    (hd0 : ∀ a, dist a a = 0) (hnn : ∀ a b, 0 ≤ dist a b) :
    tier1Hit? dist
      (insert_tier1 s request.org_id doc_id request.intent code
        request.context.language tc) request =
      some ⟨doc_id, request.intent,
        ⟨request.org_id, request.context.language, code, tc⟩⟩ := by
  simp only [tier1Hit?,
    search_tier1_after_insert dist s request.org_id doc_id request.intent
      code request.context.language tc (hd0 request.intent) hnn]
  simp [hd0, beq_self_eq_true]

/-- Every fallthrough past Tier 1 queries Tier 2 first. -/
theorem step2_trace_head (dist : String → String → ℚ)
    (hydrate : String → CodeContext → Except String String)
    (synth : OptimizeRequest → Except String SynthResult)
    (s : EngineState) (request : OptimizeRequest) :
    ∃ rest, (step2_tier2 dist hydrate synth s request).2.2 =
      .searchT2 :: rest := by
  cases h2 : tier2Hit? dist s request with
  | some r2 =>
      cases h3 : hydrate r2.meta.optimized_code request.context with
      | error m =>
          refine ⟨[.hydrateEv], ?_⟩
          simp only [step2_tier2, h2, h3]
      | ok hydrated =>
          refine ⟨[.hydrateEv, .writeT1], ?_⟩
          simp only [step2_tier2, h2, h3]
  | none =>
      refine ⟨(step3_synthesize hydrate synth s request).2.2, ?_⟩
      simp only [step2_tier2, h2]

/-- A successful response produced past Tier 1 is never labeled as a
Tier 1 hit. -/
theorem step2_source_not_tier1 (dist : String → String → ℚ)
    (hydrate : String → CodeContext → Except String String)
    (synth : OptimizeRequest → Except String SynthResult)
    (s : EngineState) (request : OptimizeRequest) (resp : OptimizeResponse)
    (h : (step2_tier2 dist hydrate synth s request).1 = .ok resp) :
    resp.source_tier ≠ "Tier 1 (Org Cache)" := by
  cases h2 : tier2Hit? dist s request with
  | some r2 =>
      cases h3 : hydrate r2.meta.optimized_code request.context with
      | error m =>
          simp only [step2_tier2, h2, h3] at h
          exact Except.noConfusion h
      | ok hydrated =>
          simp only [step2_tier2, h2, h3, Except.ok.injEq] at h
          rw [← h]
          show "Tier 2 (Global Cache + Hydration)" ≠ "Tier 1 (Org Cache)"
          decide
  | none =>
      cases h4 : synth request with
      | error m =>
          simp only [step2_tier2, step3_synthesize, h2, h4] at h
          exact Except.noConfusion h
      | ok sr =>
          cases h5 : hydrate sr.pure_cpp_code request.context with
          | error m =>
              simp only [step2_tier2, step3_synthesize, h2, h4, h5] at h
              exact Except.noConfusion h
          | ok hydrated =>
              simp only [step2_tier2, step3_synthesize, h2, h4, h5,
                Except.ok.injEq] at h
              rw [← h]
              show "Tier 3 (Active Synthesis)" ≠ "Tier 1 (Org Cache)"
              decide

/-- C4: when neither Tier 1 nor Tier 2 qualifies, the orchestrator probes
Tier 1 then Tier 2 in order, invokes Synthesize exactly once, writes the
pure artifact to Tier 2, hydrates, writes the hydrated artifact to
Tier 1, and returns the hydrated artifact. -/
theorem process_double_miss_synthesizes_once (dist : String → String → ℚ)
    (hydrate : String → CodeContext → Except String String)
    (synth : OptimizeRequest → Except String SynthResult)
    (s : EngineState) (request : OptimizeRequest) (sr : SynthResult)
    (hydrated_code : String)
    (h1 : tier1Hit? dist s request = none)
    (h2 : tier2Hit? dist s request = none)
    (h3 : synth request = .ok sr)
    (h4 : hydrate sr.pure_cpp_code request.context = .ok hydrated_code) :
    process_optimization dist hydrate synth s request =
      (.ok { status := "success"
             source_tier := "Tier 3 (Active Synthesis)"
             time_complexity := sr.time_complexity
             optimized_code := hydrated_code
             tokens_saved := 0 },
       { tier1 := s.tier1 ++
           [⟨"uuid-" ++ toString (s.nextUuid + 1), request.intent,
             ⟨request.org_id, request.context.language, hydrated_code,
              sr.time_complexity⟩⟩],
         tier2 := s.tier2 ++
           [⟨"uuid-" ++ toString s.nextUuid, request.intent,
             ⟨"C++", sr.pure_cpp_code, sr.time_complexity⟩⟩],
         nextUuid := s.nextUuid + 2 },
       [.searchT1, .searchT2, .synthesizeEv, .writeT2, .hydrateEv,
        .writeT1]) := by
  simp only [process_optimization, step2_tier2, step3_synthesize, h1, h2, h3,
    h4, insert_tier1, insert_tier2, bump, uuidStr]

/-- C4 witness: a concrete full-miss run synthesizes once and populates
both tiers. -/
theorem process_double_miss_witness :
    process_optimization distZero hydrOk synthOk exState0 exReq =
      (.ok ⟨"success", "Tier 3 (Active Synthesis)", "O(n)",
        "hydrated: pure cpp", 0⟩,
       exStateAfter,
       [.searchT1, .searchT2, .synthesizeEv, .writeT2, .hydrateEv,
        .writeT1]) :=
  process_double_miss_synthesizes_once distZero hydrOk synthOk exState0 exReq
    ⟨"pure cpp", "O(n)"⟩ "hydrated: pure cpp" rfl rfl rfl rfl

/-- C3 amended: a Synthesize failure writes nothing; a Hydrate failure on
the Tier 2 hit path writes nothing; but a Hydrate failure on the
synthesis path happens after the Tier 2 write, which persists (Tier 1 is
still never written on a failed request); the propagated error carries
the failing phase. -/
theorem adapter_failure_write_semantics (dist : String → String → ℚ)
    (hydrate : String → CodeContext → Except String String)
    (synth : OptimizeRequest → Except String SynthResult)
    (s : EngineState) (request : OptimizeRequest) :
    (∀ m, tier1Hit? dist s request = none → tier2Hit? dist s request = none →
      synth request = .error m →
      process_optimization dist hydrate synth s request =
        (.error (.synthesisFailed m), s,
         [.searchT1, .searchT2, .synthesizeEv])) ∧
    (∀ r2 m, tier1Hit? dist s request = none →
      tier2Hit? dist s request = some r2 →
      hydrate r2.meta.optimized_code request.context = .error m →
      process_optimization dist hydrate synth s request =
        (.error (.hydrationFailed m), s,
         [.searchT1, .searchT2, .hydrateEv])) ∧
    (∀ sr m, tier1Hit? dist s request = none →
      tier2Hit? dist s request = none →
      synth request = .ok sr →
      hydrate sr.pure_cpp_code request.context = .error m →
      process_optimization dist hydrate synth s request =
        (.error (.hydrationFailed m),
         { tier1 := s.tier1,
           tier2 := s.tier2 ++
             [⟨"uuid-" ++ toString s.nextUuid, request.intent,
               ⟨"C++", sr.pure_cpp_code, sr.time_complexity⟩⟩],
           nextUuid := s.nextUuid + 1 },
         [.searchT1, .searchT2, .synthesizeEv, .writeT2, .hydrateEv])) := by
  refine ⟨?_, ?_, ?_⟩
  · intro m h1 h2 h3
    simp only [process_optimization, step2_tier2, step3_synthesize, h1, h2, h3]
  · intro r2 m h1 h2 h3
    simp only [process_optimization, step2_tier2, h1, h2, h3]
  · intro sr m h1 h2 h3 h4
    simp only [process_optimization, step2_tier2, step3_synthesize, h1, h2, h3,
      h4, insert_tier2, bump, uuidStr]

/-- C3 amended witness: a concrete failed-synthesis run leaves both tiers
untouched and reports the synthesis phase. -/
theorem adapter_failure_write_semantics_witness :
    process_optimization distZero hydrOk
        (fun _ => .error "gemini unavailable") exState0 exReq =
      (.error (.synthesisFailed "gemini unavailable"), exState0,
       [.searchT1, .searchT2, .synthesizeEv]) :=
  (adapter_failure_write_semantics distZero hydrOk
      (fun _ => .error "gemini unavailable") exState0 exReq).1
    "gemini unavailable" rfl rfl rfl

/-- C3 counterexample: with both tiers missing, a successful Synthesize
followed by a raising Hydrate leaves the request failed yet Tier 2
already holds one new record — a tier write did occur during the failed
request. -/
theorem hydration_failure_leaves_tier2_write :
    (process_optimization distZero hydrFail synthOk exState0 exReq).1 =
      .error (.hydrationFailed "groq unavailable") ∧
    ((process_optimization distZero hydrFail synthOk exState0
        exReq).2.1.tier2).length = 1 ∧
    exState0.tier2.length = 0 :=
  ⟨rfl, rfl, rfl⟩

/-- C5: a distance-qualifying Tier 1 candidate whose stored language tag
differs from the request's language is treated as a full Tier 1 miss:
it is not accepted, the run continues exactly as the Tier 2 stage on the
unchanged state (so the candidate is not demoted either), Tier 2 is
queried next, and any successful response is not labeled Tier 1. -/
theorem tier1_language_mismatch_is_miss (dist : String → String → ℚ)
    (hydrate : String → CodeContext → Except String String)
    (synth : OptimizeRequest → Except String SynthResult)
    (s : EngineState) (request : OptimizeRequest) (r : T1Rec)
    (hs : search_tier1 dist s request.org_id request.intent = some r)
    (hd : dist request.intent r.doc < 1)
    (hl : r.meta.language ≠ request.context.language) :
    tier1Hit? dist s request = none ∧
    process_optimization dist hydrate synth s request =
      ((step2_tier2 dist hydrate synth s request).1,
       (step2_tier2 dist hydrate synth s request).2.1,
       .searchT1 :: (step2_tier2 dist hydrate synth s request).2.2) ∧
    (∃ rest, (process_optimization dist hydrate synth s request).2.2 =
      .searchT1 :: .searchT2 :: rest) ∧
    (∀ resp, (process_optimization dist hydrate synth s request).1 =
        .ok resp → resp.source_tier ≠ "Tier 1 (Org Cache)") := by
  have hnone : tier1Hit? dist s request = none := by
    simp only [tier1Hit?, hs]
    rw [if_pos hd]
    simp [hl]
  refine ⟨hnone, ?_, ?_, ?_⟩
  · simp only [process_optimization, hnone]
  · obtain ⟨rest, hr⟩ := step2_trace_head dist hydrate synth s request
    exact ⟨rest, by simp only [process_optimization, hnone, hr]⟩
  · intro resp hresp
    apply step2_source_not_tier1 dist hydrate synth s request resp
    simpa only [process_optimization, hnone] using hresp

/-- C5 witness: a distance-0 Java-tagged candidate does not satisfy a
Python request; Tier 1 reports a miss. -/
theorem tier1_language_mismatch_witness :
    tier1Hit? distZero exStateLang exReq = none :=
  (tier1_language_mismatch_is_miss distZero hydrOk synthOk exStateLang exReq
    ⟨"uuid-9", "sort array", ⟨"org-1", "Java", "java code", "O(n)"⟩⟩
    rfl (by norm_num [distZero]) (by decide)).1

/-- C1: after any successful `process_optimization` run, re-issuing the
identical request is served as a Tier 1 hit returning the exact artifact
of the first run, with no Synthesize call, no Hydrate call and no tier
write: the state is unchanged and the trace is the single Tier 1 probe.
(Assumes the spec's distance semantics: `dist` is non-negative and `0`
on identical texts.) -/
theorem process_optimization_idempotent (dist : String → String → ℚ)
    (hydrate : String → CodeContext → Except String String)
    (synth : OptimizeRequest → Except String SynthResult)
    (s : EngineState) (request : OptimizeRequest)
    (resp : OptimizeResponse) (s' : EngineState) (tr : List Ev)
    (hd0 : ∀ a, dist a a = 0) (hnn : ∀ a b, 0 ≤ dist a b)
    (h : process_optimization dist hydrate synth s request =
      (.ok resp, s', tr)) :
    process_optimization dist hydrate synth s' request =
      (.ok { status := "success"
             source_tier := "Tier 1 (Org Cache)"
             time_complexity := resp.time_complexity
             optimized_code := resp.optimized_code
             tokens_saved := 1500 },
       s', [.searchT1]) := by
  cases h1 : tier1Hit? dist s request with
  | some r =>
      simp only [process_optimization, h1, Prod.mk.injEq,
        Except.ok.injEq] at h
      obtain ⟨e1, e2, e3⟩ := h
      subst e2
      simp only [process_optimization, h1]
      rw [← e1]
      rfl
  | none =>
      cases h2 : tier2Hit? dist s request with
      | some r2 =>
          cases h3 : hydrate r2.meta.optimized_code request.context with
          | error m =>
              simp [process_optimization, step2_tier2, h1, h2, h3] at h
          | ok hy =>
              simp only [process_optimization, step2_tier2, h1, h2, h3,
                Prod.mk.injEq, Except.ok.injEq] at h
              obtain ⟨e1, e2, e3⟩ := h
              subst e2
              simp only [process_optimization,
                tier1Hit_after_insert dist (bump s) request (uuidStr s) hy
                  r2.meta.time_complexity hd0 hnn]
              rw [← e1]
              rfl
      | none =>
          cases h4 : synth request with
          | error m =>
              simp [process_optimization, step2_tier2, step3_synthesize, h1,
                h2, h4] at h
          | ok sr =>
              cases h5 : hydrate sr.pure_cpp_code request.context with
              | error m =>
                  simp [process_optimization, step2_tier2, step3_synthesize,
                    h1, h2, h4, h5] at h
              | ok hy =>
                  simp only [process_optimization, step2_tier2,
                    step3_synthesize, h1, h2, h4, h5, Prod.mk.injEq,
                    Except.ok.injEq] at h
                  obtain ⟨e1, e2, e3⟩ := h
                  subst e2
                  simp only [process_optimization,
                    tier1Hit_after_insert dist
                      (bump (insert_tier2 (bump s) (uuidStr s) request.intent
                        sr.pure_cpp_code sr.time_complexity))
                      request
                      (uuidStr (insert_tier2 (bump s) (uuidStr s)
                        request.intent sr.pure_cpp_code sr.time_complexity))
                      hy sr.time_complexity hd0 hnn]
                  rw [← e1]
                  rfl

/-- C1 witness: after the concrete synthesis run, the identical request
is a pure Tier 1 hit on the unchanged state. -/
theorem process_optimization_idempotent_witness :
    process_optimization distZero hydrOk synthOk exStateAfter exReq =
      (.ok ⟨"success", "Tier 1 (Org Cache)", "O(n)", "hydrated: pure cpp",
        1500⟩,
       exStateAfter, [.searchT1]) :=
  process_optimization_idempotent distZero hydrOk synthOk exState0 exReq
    ⟨"success", "Tier 3 (Active Synthesis)", "O(n)", "hydrated: pure cpp", 0⟩
    exStateAfter
    [.searchT1, .searchT2, .synthesizeEv, .writeT2, .hydrateEv, .writeT1]
    (fun _ => rfl) (fun _ _ => le_refl 0) rfl

/-- A constant distance of exactly the cache threshold. -/
def distOne : String → String → ℚ :=
  fun _ _ => 1

/-- The dedup pass returns a sublist of its input. -/
theorem dedup_sublist (seen : List String) (l : List RHit) :
    dedupByRuleText seen l <+ l := by
  induction l generalizing seen with
  | nil => exact List.Sublist.refl []
  | cons x t ih =>
      unfold dedupByRuleText
      by_cases hx : x.rule_text ∈ seen
      · rw [if_pos hx]
        exact List.Sublist.cons x (ih seen)
      · rw [if_neg hx]
        exact List.Sublist.cons₂ x (ih (x.rule_text :: seen))

/-- No dedup survivor carries a key from the seen set. -/
theorem dedup_not_seen (seen : List String) (l : List RHit) (h : RHit)
    (hm : h ∈ dedupByRuleText seen l) : h.rule_text ∉ seen := by
  induction l generalizing seen with
  | nil => simp [dedupByRuleText] at hm
  | cons x t ih =>
      unfold dedupByRuleText at hm
      by_cases hx : x.rule_text ∈ seen
      · rw [if_pos hx] at hm
        exact ih seen hm
      · rw [if_neg hx] at hm
        rcases List.mem_cons.mp hm with rfl | hm2
        · exact hx
        · intro hcontra
          exact ih (x.rule_text :: seen) hm2 (List.mem_cons_of_mem _ hcontra)

/-- Dedup output keys are pairwise distinct. -/
theorem dedup_keys_nodup (seen : List String) (l : List RHit) :
    ((dedupByRuleText seen l).map (fun h => h.rule_text)).Nodup := by
  induction l generalizing seen with
  | nil => simp [dedupByRuleText]
  | cons x t ih =>
      unfold dedupByRuleText
      by_cases hx : x.rule_text ∈ seen
      · rw [if_pos hx]
        exact ih seen
      · rw [if_neg hx]
        simp only [List.map_cons, List.nodup_cons]
        refine ⟨?_, ih (x.rule_text :: seen)⟩
        intro hcontra
        obtain ⟨h', hm', he'⟩ := List.mem_map.mp hcontra
        exact dedup_not_seen _ _ h' hm'
          (by rw [he']; exact List.mem_cons_self _ _)

/-- On a distance-sorted input, each dedup survivor has minimal distance
within its key class. -/
theorem dedup_best (l : List RHit) (hs : List.Pairwise hitLE l)
    (seen : List String) (h h' : RHit)
    (hm : h ∈ dedupByRuleText seen l) (hm' : h' ∈ l)
    (hk : h'.rule_text = h.rule_text) : h.distance ≤ h'.distance := by
  induction l generalizing seen with
  | nil => simp at hm'
  | cons x t ih =>
      obtain ⟨hx_all, ht⟩ := List.pairwise_cons.mp hs
      unfold dedupByRuleText at hm
      by_cases hx : x.rule_text ∈ seen
      · rw [if_pos hx] at hm
        rcases List.mem_cons.mp hm' with rfl | hm'2
        · exact absurd (hk ▸ hx) (dedup_not_seen seen t h hm)
        · exact ih ht seen hm hm'2
      · rw [if_neg hx] at hm
        rcases List.mem_cons.mp hm with rfl | hm2
        · rcases List.mem_cons.mp hm' with rfl | hm'2
          · exact le_refl _
          · exact hx_all h' hm'2
        · rcases List.mem_cons.mp hm' with rfl | hm'2
          · exact absurd
              (by rw [← hk]; exact List.mem_cons_self _ _)
              (dedup_not_seen _ _ h hm2)
          · exact ih ht (x.rule_text :: seen) hm2 hm'2

/-- Every input element whose key is not yet seen is represented in the
dedup output. -/
theorem dedup_covers (seen : List String) (l : List RHit) (h' : RHit)
    (hm' : h' ∈ l) (hns : h'.rule_text ∉ seen) :
    ∃ h ∈ dedupByRuleText seen l, h.rule_text = h'.rule_text := by
  induction l generalizing seen with
  | nil => simp at hm'
  | cons x t ih =>
      unfold dedupByRuleText
      by_cases hx : x.rule_text ∈ seen
      · rw [if_pos hx]
        rcases List.mem_cons.mp hm' with rfl | hm'2
        · exact absurd hx hns
        · exact ih seen hm'2 hns
      · rw [if_neg hx]
        by_cases hkey : h'.rule_text = x.rule_text
        · exact ⟨x, List.mem_cons_self _ _, hkey.symm⟩
        · rcases List.mem_cons.mp hm' with rfl | hm'2
          · exact absurd rfl hkey
          · obtain ⟨h, hh, he⟩ := ih (x.rule_text :: seen) hm'2
              (by
                intro hc
                rcases List.mem_cons.mp hc with he0 | hseen
                · exact hkey he0
                · exact hns hseen)
            exact ⟨h, List.mem_cons_of_mem _ hh, he⟩

/-- The early empty return of `retrieve_relevant_rules` coincides with
running the full pipeline. -/
theorem retrieve_filter_eq (threshold : ℚ) (cands : List RHit) (m : Nat) :
    retrieve_filter threshold cands m =
      (dedupByRuleText [] (sortHits (relevantOf threshold cands))).take m := by
  unfold retrieve_filter
  by_cases he : (relevantOf threshold cands).isEmpty = true
  · rw [if_pos he]
    rw [List.isEmpty_iff] at he
    rw [he]
    simp [sortHits, dedupByRuleText]
  · rw [if_neg he]

/-- The filter output is a sublist of the sorted survivor list. -/
theorem retrieve_filter_sublist_sort (threshold : ℚ) (cands : List RHit)
    (m : Nat) :
    retrieve_filter threshold cands m <+
      sortHits (relevantOf threshold cands) := by
  rw [retrieve_filter_eq]
  exact (List.take_sublist _ _).trans (dedup_sublist [] _)

/-- Membership soundness of the filter pipeline: every returned hit is an
input candidate strictly below the threshold. -/
theorem retrieve_filter_mem (threshold : ℚ) (cands : List RHit) (m : Nat)
    (h : RHit) (hm : h ∈ retrieve_filter threshold cands m) :
    h ∈ cands ∧ h.distance < threshold := by
  have h1 : h ∈ sortHits (relevantOf threshold cands) :=
    (retrieve_filter_sublist_sort threshold cands m).subset hm
  have h2 : h ∈ relevantOf threshold cands :=
    (List.perm_insertionSort hitLE _).subset h1
  obtain ⟨hc, hd⟩ := List.mem_filter.mp h2
  exact ⟨hc, of_decide_eq_true hd⟩

/-- C6: the relevance filter keeps exactly the strictly-below-threshold
candidates, sorted ascending by distance (stably: equal-distance pairs
keep their original order through the sort), deduplicated by `rule_text`
keeping only the lowest-distance occurrence of each key (every
qualifying key stays represented before truncation), and truncated to
`max_rules` elements. -/
theorem retrieve_filter_spec (threshold : ℚ) (cands : List RHit)
    (max_rules : Nat) :
    (∀ h ∈ retrieve_filter threshold cands max_rules,
        h ∈ cands ∧ h.distance < threshold) ∧
    List.Sorted hitLE (retrieve_filter threshold cands max_rules) ∧
    ((retrieve_filter threshold cands max_rules).map
        (fun h => h.rule_text)).Nodup ∧
    (∀ h ∈ retrieve_filter threshold cands max_rules, ∀ h' ∈ cands,
        h'.rule_text = h.rule_text → h'.distance < threshold →
        h.distance ≤ h'.distance) ∧
    (retrieve_filter threshold cands max_rules).length ≤ max_rules ∧
    (∀ a b, [a, b] <+ relevantOf threshold cands →
        a.distance = b.distance →
        [a, b] <+ sortHits (relevantOf threshold cands)) ∧
    (∀ h' ∈ cands, h'.distance < threshold →
        ∃ h ∈ dedupByRuleText [] (sortHits (relevantOf threshold cands)),
          h.rule_text = h'.rule_text ∧ h.distance ≤ h'.distance) := by
  refine ⟨retrieve_filter_mem threshold cands max_rules, ?_, ?_, ?_, ?_, ?_, ?_⟩
  · exact List.Pairwise.sublist
      (retrieve_filter_sublist_sort threshold cands max_rules)
      (List.sorted_insertionSort hitLE (relevantOf threshold cands))
  · have hsub : (retrieve_filter threshold cands max_rules).map
        (fun h => h.rule_text) <+
        (dedupByRuleText [] (sortHits (relevantOf threshold cands))).map
          (fun h => h.rule_text) := by
      rw [retrieve_filter_eq]
      exact List.Sublist.map _ (List.take_sublist _ _)
    exact (dedup_keys_nodup [] _).sublist hsub
  · intro h hm h' hm' hk hd'
    have hdedup : h ∈ dedupByRuleText []
        (sortHits (relevantOf threshold cands)) := by
      have := hm
      rw [retrieve_filter_eq] at this
      exact (List.take_sublist _ _).subset this
    have h'sort : h' ∈ sortHits (relevantOf threshold cands) :=
      (List.perm_insertionSort hitLE _).mem_iff.mpr
        (List.mem_filter.mpr ⟨hm', decide_eq_true hd'⟩)
    exact dedup_best _ (List.sorted_insertionSort hitLE _) [] h h' hdedup
      h'sort hk
  · rw [retrieve_filter_eq, List.length_take]
    exact min_le_left _ _
  · intro a b hab hd
    refine List.pair_sublist_insertionSort ?_ hab
    exact le_of_eq hd
  · intro h' hm' hd'
    have h'sort : h' ∈ sortHits (relevantOf threshold cands) :=
      (List.perm_insertionSort hitLE _).mem_iff.mpr
        (List.mem_filter.mpr ⟨hm', decide_eq_true hd'⟩)
    obtain ⟨h, hh, he⟩ := dedup_covers [] _ h' h'sort (by simp)
    exact ⟨h, hh, he,
      dedup_best _ (List.sorted_insertionSort hitLE _) [] h h' hh h'sort
        he.symm⟩

/-- C6 witness: the lowest-distance duplicate survives on the concrete
list, and the cap bounds the 20-candidate run at 5. -/
theorem retrieve_filter_spec_witness :
    (hDup ∈ exHits ∧ hDup.distance < 1) ∧
    (retrieve_filter 1 exHits20 5).length ≤ 5 :=
  ⟨(retrieve_filter_spec 1 exHits 5).1 hDup (by decide),
   (retrieve_filter_spec 1 exHits20 5).2.2.2.2.1⟩

/-- C7: both call sites compare with strict less-than: a candidate at
exactly the threshold is excluded (the Tier 1 lookup rejects a
distance-1.0 best candidate), while a candidate at threshold minus any
positive epsilon passes the comparison (and a sub-threshold Tier 1
candidate with matching language is accepted). -/
theorem strict_threshold_both_sites :
    (∀ (cands : List RHit) (m : Nat) (h : RHit), h ∈ cands →
        h.distance = RELEVANCE_THRESHOLD →
        h ∉ retrieve_filter RELEVANCE_THRESHOLD cands m) ∧
    (∀ (cands : List RHit) (h : RHit) (ε : ℚ), 0 < ε → h ∈ cands →
        h.distance = RELEVANCE_THRESHOLD - ε →
        h ∈ relevantOf RELEVANCE_THRESHOLD cands) ∧
    (∀ (dist : String → String → ℚ) (s : EngineState)
        (request : OptimizeRequest) (r : T1Rec),
        search_tier1 dist s request.org_id request.intent = some r →
        dist request.intent r.doc = 1 →
        tier1Hit? dist s request = none) ∧
    (∀ (dist : String → String → ℚ) (s : EngineState)
        (request : OptimizeRequest) (r : T1Rec),
        search_tier1 dist s request.org_id request.intent = some r →
        dist request.intent r.doc < 1 →
        r.meta.language = request.context.language →
        tier1Hit? dist s request = some r) := by
  refine ⟨?_, ?_, ?_, ?_⟩
  · intro cands m h hm hd hmem
    have hlt := (retrieve_filter_mem RELEVANCE_THRESHOLD cands m h hmem).2
    rw [hd] at hlt
    exact lt_irrefl _ hlt
  · intro cands h ε hε hm hd
    refine List.mem_filter.mpr ⟨hm, decide_eq_true ?_⟩
    rw [hd]
    exact sub_lt_self _ hε
  · intro dist s request r hs hd
    simp only [tier1Hit?, hs]
    rw [if_neg (by rw [hd]; exact lt_irrefl (1 : ℚ))]
  · intro dist s request r hs hd hl
    simp only [tier1Hit?, hs]
    rw [if_pos hd]
    simp [hl]

/-- C7 witness: a distance-1.0 Tier 1 best candidate is rejected, and the
candidate at distance 0 = threshold - 1 passes the retriever threshold. -/
theorem strict_threshold_witness :
    tier1Hit? distOne exStateLang exReq = none ∧
    exHit0 ∈ relevantOf RELEVANCE_THRESHOLD [exHit0] :=
  ⟨strict_threshold_both_sites.2.2.1 distOne exStateLang exReq
     ⟨"uuid-9", "sort array", ⟨"org-1", "Java", "java code", "O(n)"⟩⟩
     rfl rfl,
   strict_threshold_both_sites.2.1 [exHit0] exHit0 1 (by decide)
     (by decide) (by simp [exHit0, RELEVANCE_THRESHOLD])⟩

end OptiEngine
